import Mathlib

/-!
Shallow embedding of `telegram_bot_plug.py` (x821938/TelegramBotPlug).

The program manages "custom bot" plugins for a Telegram dispatcher:
`Bot` (base class holding a handler list), `Botmaster` (registry of
loaded plugin modules and bot instances, with load/reload logic),
`Filewatcher` (invokes a callback when a watched file matching the
regex ".py$" changes).

Python exceptions are modelled with explicit success flags / `Except`;
the dispatcher, the log and the registry are threaded as explicit
state.  The dispatcher additionally records a trace of the add/remove
calls made against it, so that ordering properties can be stated.
-/

namespace TelegramBotPlug

/-- Handler-registration tokens are opaque; we number them. -/
abbrev Handler := Nat

/-- One call made against the dispatcher: an `add_handler` call, a
`remove_handler` call that succeeded, or a `remove_handler` call that
raised inside the dispatcher. -/
inductive DpOp where
  | addOp (h : Handler)
  | removeOk (h : Handler)
  | removeFail (h : Handler)
deriving DecidableEq, Repr

/-- The external telegram dispatcher, modelled by its registered-handler
list, the set of tokens whose removal raises (to model dispatcher-side
removal failures), and the trace of calls made against it. -/
structure Dispatcher where
  registered : List Handler
  badRemove : List Handler
  trace : List DpOp
deriving DecidableEq, Repr

/-- `dispatcher.add_handler(handler)`: registers the handler (modelled as
always succeeding) and records the call. -/
def Dispatcher.add_handler (dp : Dispatcher) (h : Handler) : Dispatcher :=
  { dp with registered := dp.registered ++ [h], trace := dp.trace ++ [DpOp.addOp h] }

/-- `dispatcher.remove_handler(handler)`: the returned `Bool` is `false`
when the dispatcher raised (token in `badRemove`); the trace records the
attempt either way. -/
def Dispatcher.remove_handler (dp : Dispatcher) (h : Handler) : Dispatcher × Bool :=
  if h ∈ dp.badRemove then
    ({ dp with trace := dp.trace ++ [DpOp.removeFail h] }, false)
  else
    ({ dp with registered := dp.registered.erase h, trace := dp.trace ++ [DpOp.removeOk h] }, true)

/-- Log records emitted by the program, one constructor per logging call
site in the source. -/
inductive LogEntry where
  | addingHandler (h : Handler)
  | removingHandler (h : Handler)
  | couldNotRemoveHandlers
  | missingInitError
  | createdInstance
  | noBotClassWarning
  | loadingNewBot (f : String)
  | couldNotLoadBot (f : String)
  | reloadedBot (f : String)
  | couldNotReloadBot (f : String)
  | couldNotRemoveFromBot (f : String)
  | fileChanged (f : String)
deriving DecidableEq, Repr

/-- A live object of (a subclass of) the base class `Bot`.  `clsId`
identifies the class it was instantiated from.  `handlers = none` models
an object on which the base `Bot.__init__` never ran, so that the
attribute `self.handlers` does not exist and accessing it raises
`AttributeError`. -/
structure BotObj where
  clsId : Nat
  handlers : Option (List Handler)
deriving DecidableEq, Repr

/-- `Bot.is_sane(self)`: accessing `self.handlers` succeeds iff the base
constructor ran; otherwise the `AttributeError` is caught, an error is
logged and `False` is returned. -/
def BotObj.is_sane (b : BotObj) : Bool × List LogEntry :=
  match b.handlers with
  | some _ => (true, [])
  | none => (false, [LogEntry.missingInitError])

/-- `Bot.add_handler(self, handler)`: guarded by `is_sane`; on success it
logs, appends to `self.handlers` and registers with the dispatcher; when
the guard fails nothing but the error log happens. -/
def BotObj.add_handler (b : BotObj) (dp : Dispatcher) (h : Handler) :
    BotObj × Dispatcher × List LogEntry :=
  match b.handlers with
  | some hs =>
      ({ b with handlers := some (hs ++ [h]) },
        dp.add_handler h, [LogEntry.addingHandler h])
  | none => (b, dp, [LogEntry.missingInitError])

/-- The `for handler in self.handlers: ... dp.remove_handler(handler)`
loop of `Bot.remove_handlers`, run inside the single `try`: the returned
flag is `false` when some removal raised, in which case the loop stops
at that handler (the exception escapes the loop to the `except`). -/
def removeLoop (dp : Dispatcher) (hs : List Handler) : Dispatcher × List LogEntry × Bool :=
  match hs with
  | [] => (dp, [], true)
  | h :: rest =>
      let r := dp.remove_handler h
      if r.2 then
        let r2 := removeLoop r.1 rest
        (r2.1, LogEntry.removingHandler h :: r2.2.1, r2.2.2)
      else
        (r.1, [LogEntry.removingHandler h], false)

/-- `Bot.remove_handlers(self)`: the whole removal loop is wrapped in one
`try`/`except`; a raised removal is caught after the loop and logged.
An object without a `handlers` attribute raises `AttributeError` at the
`for`, which the same `except` catches.  `self.handlers` is not cleared. -/
def BotObj.remove_handlers (b : BotObj) (dp : Dispatcher) : Dispatcher × List LogEntry :=
  match b.handlers with
  | none => (dp, [LogEntry.couldNotRemoveHandlers])
  | some hs =>
      let r := removeLoop dp hs
      (r.1, r.2.1 ++ (if r.2.2 then [] else [LogEntry.couldNotRemoveHandlers]))

/-- What a custom bot class's `__init__` does when instantiated.  The
shipped example bots call `super().__init__(dp)` and then add some
handlers (`addsHandlers n`); a broken bot may raise (`raisesError`) or
skip the base initializer and then try to add handlers (`skipsInit n`). -/
inductive CtorBehavior where
  | addsHandlers (n : Nat)
  | raisesError
  | skipsInit (n : Nat)
deriving DecidableEq, Repr

/-- A Python class object: its identity, the identities of all classes it
is a subclass of (itself included, as in Python), and its constructor
behaviour. -/
structure PyClass where
  clsId : Nat
  superIds : List Nat
  ctorB : CtorBehavior
deriving DecidableEq, Repr

/-- A module attribute: either a class object or some non-class value. -/
inductive PyObj where
  | clsObj (c : PyClass)
  | plain
deriving DecidableEq, Repr

/-- A loaded module: its `__dict__`, insertion-ordered. -/
structure Module where
  dict : List (String × PyObj)
deriving DecidableEq, Repr

/-- Dict lookup (first binding wins, as attribute lookup would). -/
def lookupD (d : List (String × PyObj)) (k : String) : Option PyObj :=
  (d.find? (fun p => p.1 == k)).map (fun p => p.2)

/-- `loaded_module.Bot`: attribute access; `none` models the
`AttributeError` raised when the module does not bind `Bot`. -/
def Module.getattrBot (m : Module) : Option PyObj :=
  lookupD m.dict "Bot"

/-- `issubclass(a, b)`: `none` models the `TypeError` raised when either
argument is not a class. -/
def issubclassChk : PyObj → PyObj → Option Bool
  | PyObj.clsObj a, PyObj.clsObj b => some (decide (b.clsId ∈ a.superIds))
  | _, _ => none

/-- The loop body of `Botmaster.get_custom_bot_class`: walk the module
dict in order; for each attribute evaluate
`issubclass(obj, loaded_module.Bot) and obj_name != "Bot"` inside a
`try` that swallows `TypeError` and `AttributeError`; return the first
attribute that passes. -/
def findBotClass (botAttr : Option PyObj) : List (String × PyObj) → Option PyClass
  | [] => none
  | (name, obj) :: rest =>
      match botAttr, obj with
      | some bo, PyObj.clsObj c =>
          if issubclassChk (PyObj.clsObj c) bo = some true ∧ name ≠ "Bot" then some c
          else findBotClass botAttr rest
      | _, _ => findBotClass botAttr rest

/-- `Botmaster.get_custom_bot_class(loaded_module)`. -/
def get_custom_bot_class (m : Module) : Option PyClass :=
  findBotClass m.getattrBot m.dict

/-- Running a custom bot constructor: `n` handler additions with fresh
tokens, threading the dispatcher and the token counter.  (Each handler
descriptor is a freshly created object, so the counter advances per
attempt.) -/
def addHandlersLoop (b : BotObj) (dp : Dispatcher) (next : Nat) :
    Nat → BotObj × Dispatcher × Nat × List LogEntry
  | 0 => (b, dp, next, [])
  | Nat.succ n =>
      let r := b.add_handler dp next
      let r2 := addHandlersLoop r.1 r.2.1 (next + 1) n
      (r2.1, r2.2.1, r2.2.2.1, r.2.2 ++ r2.2.2.2)

/-- `bot_class(self.dispatcher)`: instantiate the discovered class.  The
first component is `none` when the constructor raised. -/
def runCtor (c : PyClass) (dp : Dispatcher) (next : Nat) :
    Option BotObj × Dispatcher × Nat × List LogEntry :=
  match c.ctorB with
  | CtorBehavior.raisesError => (none, dp, next, [])
  | CtorBehavior.addsHandlers n =>
      let r := addHandlersLoop { clsId := c.clsId, handlers := some [] } dp next n
      (some r.1, r.2)
  | CtorBehavior.skipsInit n =>
      let r := addHandlersLoop { clsId := c.clsId, handlers := none } dp next n
      (some r.1, r.2)

/-- `Botmaster.get_custom_bot_instance(imported_module)`: discover the
class and instantiate it.  `Except.error ()` models a constructor
exception, which this method does not catch; `Except.ok none` is the
no-class-found branch (warning logged, `None` returned). -/
def get_custom_bot_instance (m : Module) (dp : Dispatcher) (next : Nat) :
    Except Unit (Option BotObj) × Dispatcher × Nat × List LogEntry :=
  match get_custom_bot_class m with
  | some c =>
      let r := runCtor c dp next
      match r.1 with
      | some b => (Except.ok (some b), r.2.1, r.2.2.1, r.2.2.2 ++ [LogEntry.createdInstance])
      | none => (Except.error (), r.2.1, r.2.2.1, r.2.2.2)
  | none => (Except.ok none, dp, next, [LogEntry.noBotClassWarning])

/-- What a plugin file on disk currently holds: `broken` means importing
or re-executing it raises (e.g. a syntax error, or the file is absent);
`codeOf d` means executing it defines the attributes `d`. -/
inductive FileContent where
  | broken
  | codeOf (d : List (String × PyObj))
deriving DecidableEq, Repr

/-- The watched directory's current contents, path-keyed. -/
abbrev FS := List (String × FileContent)

/-- Current content of a path (an absent path behaves like a failing
import). -/
def fsContent (fs : FS) (f : String) : FileContent :=
  (((fs.find? (fun p => p.1 == f)).map (fun p => p.2)).getD FileContent.broken)

/-- `Botmaster.load_bot(bot_file_name)`: first import of the module; on
any exception it logs and returns `None`. -/
def load_bot (fs : FS) (f : String) : Option Module × List LogEntry :=
  match fsContent fs f with
  | FileContent.codeOf d => (some { dict := d }, [LogEntry.loadingNewBot f])
  | FileContent.broken => (none, [LogEntry.loadingNewBot f, LogEntry.couldNotLoadBot f])

/-- `importlib.reload` semantics for the module dict: the file's code is
re-executed in the existing module namespace, so existing names are
rebound in place and genuinely new names are appended; names only
present in the old version survive. -/
def dictMerge (old new : List (String × PyObj)) : List (String × PyObj) :=
  old.map (fun p => (p.1, (lookupD new p.1).getD p.2)) ++
    new.filter (fun p => (lookupD old p.1).isNone)

/-- The registry `self.bots`: filename to (module, instance) pairs, where
the instance slot is `None` when the last discovery found no class. -/
abbrev Registry := List (String × Module × Option BotObj)

/-- `self.bots.get(f)`. -/
def lookupBots (bots : Registry) (f : String) : Option (Module × Option BotObj) :=
  (bots.find? (fun p => p.1 == f)).map (fun p => p.2)

/-- `self.bots[f] = v`: dict assignment, updating the existing binding in
place or appending a new one. -/
def setBots (bots : Registry) (f : String) (v : Module × Option BotObj) : Registry :=
  match bots with
  | [] => [(f, v)]
  | p :: rest => if p.1 == f then (f, v) :: rest else p :: setBots rest f v

/-- The whole mutable state of one `Botmaster` together with its
dispatcher, the token supply and the accumulated log. -/
structure St where
  dp : Dispatcher
  nextToken : Nat
  log : List LogEntry
  bots : Registry
deriving DecidableEq, Repr

/-- The teardown step at the top of `Botmaster.reload_bot`:
`custom_bot.remove_handlers()` inside a `try`.  When the stored instance
is `None`, the attribute access raises and the outer `except` logs; when
it is a real instance, `remove_handlers` handles its own failures and
never raises. -/
def reloadTeardown (f : String) (inst : Option BotObj) (dp : Dispatcher) :
    Dispatcher × List LogEntry :=
  match inst with
  | none => (dp, [LogEntry.couldNotRemoveFromBot f])
  | some b => b.remove_handlers dp

/-- The refresh step of `Botmaster.reload_bot`: `importlib.reload` inside
a `try`.  On failure the module dict is left as it was and an error is
logged; on success the dict is re-executed into the same namespace. -/
def reloadRefresh (fs : FS) (f : String) (m : Module) : Module × List LogEntry :=
  match fsContent fs f with
  | FileContent.codeOf d => ({ dict := dictMerge m.dict d }, [LogEntry.reloadedBot f])
  | FileContent.broken => (m, [LogEntry.couldNotReloadBot f])

/-- `Botmaster.run_bot(bot_file_name)`: load on first sight, else reload
(teardown, refresh in place, return the module object), then discover
and instantiate, then store `(module, instance)` in the registry.  The
returned flag is `true` when a constructor exception escaped `run_bot`
(nothing in it catches one). -/
def run_bot (fs : FS) (f : String) (st : St) : St × Bool :=
  match lookupBots st.bots f with
  | none =>
      match load_bot fs f with
      | (none, lg) => ({ st with log := st.log ++ lg }, false)
      | (some m, lg) =>
          let r := get_custom_bot_instance m st.dp st.nextToken
          match r.1 with
          | Except.ok instOpt =>
              ({ st with
                  dp := r.2.1
                  nextToken := r.2.2.1
                  log := st.log ++ lg ++ r.2.2.2
                  bots := setBots st.bots f (m, instOpt) }, false)
          | Except.error _ =>
              ({ st with
                  dp := r.2.1
                  nextToken := r.2.2.1
                  log := st.log ++ lg ++ r.2.2.2 }, true)
  | some (m, inst) =>
      let td := reloadTeardown f inst st.dp
      let rr := reloadRefresh fs f m
      let bots1 := setBots st.bots f (rr.1, inst)
      let r := get_custom_bot_instance rr.1 td.1 st.nextToken
      match r.1 with
      | Except.ok instOpt =>
          ({ st with
              dp := r.2.1
              nextToken := r.2.2.1
              log := st.log ++ td.2 ++ rr.2 ++ r.2.2.2
              bots := setBots bots1 f (rr.1, instOpt) }, false)
      | Except.error _ =>
          ({ st with
              dp := r.2.1
              nextToken := r.2.2.1
              log := st.log ++ td.2 ++ rr.2 ++ r.2.2.2
              bots := bots1 }, true)

/-- Whether the Python regex `.py$` matches starting at the head of this
character list: one character that is not a newline (`.` does not match
newline), then `p`, `y`, and then the `$` anchor — which accepts either
the end of the string or a single final newline. -/
def matchesPyAt : List Char → Bool
  | [c, p, y] => decide (c ≠ '\n') && (p == 'p') && (y == 'y')
  | [c, p, y, d] => decide (c ≠ '\n') && (p == 'p') && (y == 'y') && (d == '\n')
  | _ => false

/-- `re.search(".py$", s)` scans every start position. -/
def reSearchAux : List Char → Bool
  | [] => false
  | c :: rest => matchesPyAt (c :: rest) || reSearchAux rest

/-- `re.search(".py$", filename)` as used by `Filewatcher`. -/
def reSearchPyDollar (s : String) : Bool :=
  reSearchAux s.data

/-- `Filewatcher.on_modified_file(event)`: when the regex matches the
event's path, log and invoke the callback with the path (the first
component is the argument the callback receives, `none` when it is not
invoked). -/
def on_modified_file (path : String) : Option String × List LogEntry :=
  if reSearchPyDollar path then (some path, [LogEntry.fileChanged path])
  else (none, [])

/-! ### Concrete fixtures

Small concrete modules mirroring the shipped example plugins, used by
the witnesses and counterexamples. -/

/-- The base class `Bot` as bound by `from telegram_bot_plug import Bot`. -/
def baseBotCls : PyClass :=
  { clsId := 0, superIds := [0], ctorB := CtorBehavior.addsHandlers 0 }

/-- `TheFishBot(Bot)` from `my_bots/custom_fish_bot.py`: calls
`super().__init__(dp)` and adds one command handler. -/
def fishCls : PyClass :=
  { clsId := 1, superIds := [1, 0], ctorB := CtorBehavior.addsHandlers 1 }

/-- The dict of `custom_fish_bot.py` once executed. -/
def fishDict : List (String × PyObj) :=
  [("Bot", PyObj.clsObj baseBotCls), ("TheFishBot", PyObj.clsObj fishCls)]

/-- A custom bot class whose constructor raises. -/
def raisingCls : PyClass :=
  { clsId := 2, superIds := [2, 0], ctorB := CtorBehavior.raisesError }

/-- A plugin file whose single bot class raises in its constructor. -/
def raisingDict : List (String × PyObj) :=
  [("Bot", PyObj.clsObj baseBotCls), ("BadBot", PyObj.clsObj raisingCls)]

/-- A plugin file that imports the base class under an alias, so the
module binds no attribute named `Bot` although a genuine subclass of
the base is defined in it. -/
def aliasedDict : List (String × PyObj) :=
  [("Base", PyObj.clsObj baseBotCls), ("TheFishBot", PyObj.clsObj fishCls)]

/-- A plugin file defining no subclass of `Bot` at all. -/
def emptyPluginDict : List (String × PyObj) :=
  [("Bot", PyObj.clsObj baseBotCls), ("helper", PyObj.plain)]

/-- A fresh dispatcher with no registered handlers and no failing
removals. -/
def dp0 : Dispatcher :=
  { registered := [], badRemove := [], trace := [] }

/-- A fresh `Botmaster` state. -/
def st0 : St :=
  { dp := dp0, nextToken := 0, log := [], bots := [] }

/-- The tokens that a stored instance's teardown could touch. -/
def ownedHandlers : Option BotObj → List Handler
  | some b => b.handlers.getD []
  | none => []

/-- Whether the trace records an attempt (successful or failing) to
remove token `h` from the dispatcher. -/
def attemptsRemoval (tr : List DpOp) (h : Handler) : Bool :=
  tr.any (fun op => op == DpOp.removeOk h || op == DpOp.removeFail h)

/-- Whether a dispatcher call is a removal attempt. -/
def isRemoveOp : DpOp → Bool
  | DpOp.removeOk _ => true
  | DpOp.removeFail _ => true
  | DpOp.addOp _ => false

/-- Whether a dispatcher call is an `add_handler` call. -/
def isAddOp : DpOp → Bool
  | DpOp.addOp _ => true
  | _ => false

/-- Number of registry bindings carrying the key `f`. -/
def keyCount (bots : Registry) (f : String) : Nat :=
  (bots.filter (fun p => p.1 == f)).length

/-- A directory in which `f.py` holds the fish plugin. -/
def fsFish : FS := [("f", FileContent.codeOf fishDict)]

/-- The same directory after `f.py` was rewritten with a syntax error. -/
def fsBroken : FS := [("f", FileContent.broken)]

/-- State after loading the fish plugin into a fresh `Botmaster`. -/
def stAfterLoad : St := (run_bot fsFish "f" st0).1

/-- State after the subsequent reload that hits the syntax error. -/
def stAfterBrokenReload : St := (run_bot fsBroken "f" stAfterLoad).1

/-- A directory whose only plugin defines no subclass of `Bot`. -/
def fsEmptyPlugin : FS := [("h", FileContent.codeOf emptyPluginDict)]

/-- State after loading that class-less plugin: the registry entry for
`"h"` stores no instance. -/
def stNoInstance : St := (run_bot fsEmptyPlugin "h" st0).1

/-- The class-less plugin's file rewritten to the fish plugin content. -/
def fsEmptyThenFish : FS := [("h", FileContent.codeOf fishDict)]

/-- The bot and dispatcher of the teardown counterexample: three
registered tokens, the middle one's removal raises. -/
def cexBot : BotObj := { clsId := 1, handlers := some [1, 2, 3] }

/-- See `cexBot`. -/
def cexDp : Dispatcher := { registered := [1, 2, 3], badRemove := [2], trace := [] }

/-! ## Lemmas about the teardown loop -/

/-- If every token ahead of `x` removes cleanly and `x`'s removal raises,
the loop stops at `x`: tokens before it are removed (and logged), `x`'s
failing attempt is recorded, and nothing after `x` is touched. -/
theorem removeLoop_abort (pre : List Handler) (x : Handler) (post : List Handler)
    (dp : Dispatcher) (hpre : ∀ h ∈ pre, h ∉ dp.badRemove) (hx : x ∈ dp.badRemove) :
    removeLoop dp (pre ++ x :: post) =
      ({ dp with
          registered := pre.foldl (fun r h => r.erase h) dp.registered
          trace := dp.trace ++ pre.map DpOp.removeOk ++ [DpOp.removeFail x] },
        (pre ++ [x]).map LogEntry.removingHandler, false) := by
  induction pre generalizing dp with
  | nil => simp [removeLoop, Dispatcher.remove_handler, hx]
  | cons h t ih =>
      have hh : h ∉ dp.badRemove := hpre h (by simp)
      have ih2 := ih { registered := dp.registered.erase h, badRemove := dp.badRemove, trace := dp.trace ++ [DpOp.removeOk h] } (fun h2 h2t => hpre h2 (by simp [h2t])) hx
      simp only [List.cons_append, removeLoop, Dispatcher.remove_handler, if_neg hh, ih2]
      simp [ih2, List.append_assoc]

/-- When no token's removal raises, the loop removes every token, in
order, and reports success. -/
theorem removeLoop_clean (hs : List Handler) (dp : Dispatcher)
    (hok : ∀ h ∈ hs, h ∉ dp.badRemove) :
    removeLoop dp hs =
      ({ dp with
          registered := hs.foldl (fun r h => r.erase h) dp.registered
          trace := dp.trace ++ hs.map DpOp.removeOk },
        hs.map LogEntry.removingHandler, true) := by
  induction hs generalizing dp with
  | nil => simp [removeLoop]
  | cons h t ih =>
      have hh : h ∉ dp.badRemove := hok h (by simp)
      have ih2 := ih { registered := dp.registered.erase h, badRemove := dp.badRemove, trace := dp.trace ++ [DpOp.removeOk h] } (fun h2 h2t => hok h2 (by simp [h2t]))
      simp only [removeLoop, Dispatcher.remove_handler, if_neg hh, ih2]
      simp [ih2, List.append_assoc]

/-! ## Lemmas about handler registration and instantiation -/

/-- A well-initialized bot adding `n` handlers: tokens `next, …,
next+n-1` are appended to its handler list, registered with the
dispatcher and logged, in order. -/
theorem addHandlersLoop_spec (n : Nat) (cid : Nat) (hs0 : List Handler)
    (dp : Dispatcher) (next : Nat) :
    addHandlersLoop { clsId := cid, handlers := some hs0 } dp next n =
      ({ clsId := cid, handlers := some (hs0 ++ List.range' next n) },
        { registered := dp.registered ++ List.range' next n, badRemove := dp.badRemove, trace := dp.trace ++ (List.range' next n).map DpOp.addOp },
        next + n,
        (List.range' next n).map LogEntry.addingHandler) := by
  induction n generalizing hs0 dp next with
  | zero => simp [addHandlersLoop, List.range']
  | succ n ih =>
      simp only [addHandlersLoop, BotObj.add_handler]
      rw [ih (hs0 ++ [next]) (dp.add_handler next) (next + 1)]
      simp [Dispatcher.add_handler, List.range'_succ, List.append_assoc, Nat.add_comm,
        Nat.add_assoc, Nat.add_left_comm]

/-- A bot object without the base initializer run never registers
anything: each attempt only logs the guard error. -/
theorem addHandlersLoop_none_spec (n : Nat) (cid : Nat) (dp : Dispatcher) (next : Nat) :
    addHandlersLoop { clsId := cid, handlers := none } dp next n =
      ({ clsId := cid, handlers := none }, dp, next + n,
        List.replicate n LogEntry.missingInitError) := by
  induction n generalizing dp next with
  | zero => simp [addHandlersLoop]
  | succ n ih =>
      simp only [addHandlersLoop, BotObj.add_handler]
      rw [ih]
      simp [List.replicate_succ, Nat.add_comm, Nat.add_assoc, Nat.add_left_comm]

/-- Instantiating a class whose constructor calls the base initializer
and then adds `n` handlers. -/
theorem runCtor_adds (c : PyClass) (dp : Dispatcher) (next : Nat) (n : Nat)
    (hc : c.ctorB = CtorBehavior.addsHandlers n) :
    runCtor c dp next =
      (some { clsId := c.clsId, handlers := some (List.range' next n) },
        { registered := dp.registered ++ List.range' next n, badRemove := dp.badRemove, trace := dp.trace ++ (List.range' next n).map DpOp.addOp },
        next + n,
        (List.range' next n).map LogEntry.addingHandler) := by
  simp [runCtor, hc, addHandlersLoop_spec]

/-- Instantiating a class whose constructor raises. -/
theorem runCtor_raises (c : PyClass) (dp : Dispatcher) (next : Nat)
    (hc : c.ctorB = CtorBehavior.raisesError) :
    runCtor c dp next = (none, dp, next, []) := by
  simp [runCtor, hc]

/-- Instantiating a class that skips the base initializer: nothing is
registered, the guard error is logged per attempted handler. -/
theorem runCtor_skips (c : PyClass) (dp : Dispatcher) (next : Nat) (n : Nat)
    (hc : c.ctorB = CtorBehavior.skipsInit n) :
    runCtor c dp next =
      (some { clsId := c.clsId, handlers := none }, dp, next + n,
        List.replicate n LogEntry.missingInitError) := by
  simp [runCtor, hc, addHandlersLoop_none_spec]

/-- `get_custom_bot_instance` when discovery finds nothing. -/
theorem gcbi_none (m : Module) (dp : Dispatcher) (next : Nat)
    (h : get_custom_bot_class m = none) :
    get_custom_bot_instance m dp next =
      (Except.ok none, dp, next, [LogEntry.noBotClassWarning]) := by
  simp [get_custom_bot_instance, h]

/-- `get_custom_bot_instance` on a well-behaved discovered class. -/
theorem gcbi_adds (m : Module) (dp : Dispatcher) (next : Nat) (c : PyClass) (n : Nat)
    (h : get_custom_bot_class m = some c) (hc : c.ctorB = CtorBehavior.addsHandlers n) :
    get_custom_bot_instance m dp next =
      (Except.ok (some { clsId := c.clsId, handlers := some (List.range' next n) }),
        { registered := dp.registered ++ List.range' next n, badRemove := dp.badRemove, trace := dp.trace ++ (List.range' next n).map DpOp.addOp },
        next + n,
        (List.range' next n).map LogEntry.addingHandler ++ [LogEntry.createdInstance]) := by
  simp [get_custom_bot_instance, h, runCtor_adds c dp next n hc]

/-- `get_custom_bot_instance` when the discovered constructor raises: the
exception escapes. -/
theorem gcbi_raises (m : Module) (dp : Dispatcher) (next : Nat) (c : PyClass)
    (h : get_custom_bot_class m = some c) (hc : c.ctorB = CtorBehavior.raisesError) :
    get_custom_bot_instance m dp next = (Except.error (), dp, next, []) := by
  simp [get_custom_bot_instance, h, runCtor_raises c dp next hc]

/-- `Bot.remove_handlers` when every removal succeeds. -/
theorem remove_handlers_clean (b : BotObj) (dp : Dispatcher) (hs : List Handler)
    (hb : b.handlers = some hs) (hok : ∀ h ∈ hs, h ∉ dp.badRemove) :
    b.remove_handlers dp =
      ({ registered := hs.foldl (fun r h => r.erase h) dp.registered, badRemove := dp.badRemove, trace := dp.trace ++ hs.map DpOp.removeOk },
        hs.map LogEntry.removingHandler) := by
  simp [BotObj.remove_handlers, hb, removeLoop_clean hs dp hok]

/-- `Bot.remove_handlers` when the removal of `x` raises: the loop is
aborted, the error is caught and logged. -/
theorem remove_handlers_abort (b : BotObj) (dp : Dispatcher)
    (pre : List Handler) (x : Handler) (post : List Handler)
    (hb : b.handlers = some (pre ++ x :: post))
    (hpre : ∀ h ∈ pre, h ∉ dp.badRemove) (hx : x ∈ dp.badRemove) :
    b.remove_handlers dp =
      ({ registered := pre.foldl (fun r h => r.erase h) dp.registered, badRemove := dp.badRemove, trace := dp.trace ++ pre.map DpOp.removeOk ++ [DpOp.removeFail x] },
        (pre ++ [x]).map LogEntry.removingHandler ++ [LogEntry.couldNotRemoveHandlers]) := by
  simp [BotObj.remove_handlers, hb, removeLoop_abort pre x post dp hpre hx]

/-! ## Lemmas about the registry dictionary -/

/-- After `self.bots[f] = v`, looking up `f` yields `v`. -/
theorem lookupBots_setBots_self (bots : Registry) (f : String) (v : Module × Option BotObj) :
    lookupBots (setBots bots f v) f = some v := by
  induction bots with
  | nil => simp [setBots, lookupBots]
  | cons p rest ih =>
      by_cases h : p.1 == f
      · simp [setBots, lookupBots, h]
      · simp only [setBots, if_neg h]
        simpa [lookupBots, List.find?, h] using ih

/-- Assigning a fresh key appends exactly one binding for it. -/
theorem keyCount_setBots_absent (bots : Registry) (f : String) (v : Module × Option BotObj)
    (h : lookupBots bots f = none) : keyCount (setBots bots f v) f = 1 := by
  induction bots with
  | nil => simp [setBots, keyCount]
  | cons p rest ih =>
      by_cases hp : p.1 == f
      · exfalso
        simp [lookupBots, List.find?, hp] at h
      · have h2 : lookupBots rest f = none := by
          simpa [lookupBots, List.find?, hp] using h
        have ih2 := ih h2
        simp only [keyCount] at ih2
        simp [setBots, hp, keyCount, List.filter_cons, ih2]

/-- Assigning an existing key does not change how many bindings carry it. -/
theorem keyCount_setBots_present (bots : Registry) (f : String) (v w : Module × Option BotObj)
    (h : lookupBots bots f = some w) : keyCount (setBots bots f v) f = keyCount bots f := by
  induction bots with
  | nil => simp [lookupBots] at h
  | cons p rest ih =>
      by_cases hp : p.1 == f
      · simp [setBots, keyCount, hp, List.filter_cons]
      · have h2 : lookupBots rest f = some w := by
          simpa [lookupBots, List.find?, hp] using h
        have ih2 := ih h2
        simp only [keyCount] at ih2
        simp [setBots, hp, keyCount, List.filter_cons, ih2]

/-! ## Lemmas about class discovery and module reload -/

/-- `issubclass` with a non-class first argument raises (`none`). -/
theorem issubclassChk_plain_left (bo : PyObj) : issubclassChk PyObj.plain bo = none := by
  cases bo <;> rfl

/-- Without a module attribute named `Bot`, every iteration of the
discovery loop hits `AttributeError` and is skipped. -/
theorem findBotClass_noattr (l : List (String × PyObj)) : findBotClass none l = none := by
  induction l with
  | nil => rfl
  | cons p rest ih =>
      rcases p with ⟨name, obj⟩
      rcases obj with c | _ <;> simpa [findBotClass] using ih

/-- If no entry passes the eligibility test, discovery returns nothing. -/
theorem findBotClass_none_of (bo : PyObj) (l : List (String × PyObj))
    (h : ∀ p ∈ l, p.1 ≠ "Bot" → issubclassChk p.2 bo ≠ some true) :
    findBotClass (some bo) l = none := by
  induction l with
  | nil => rfl
  | cons p rest ih =>
      rcases p with ⟨name, obj⟩
      have hrest := ih (fun q hq => h q (by simp [hq]))
      rcases obj with c | _
      · have hcond : ¬(issubclassChk (PyObj.clsObj c) bo = some true ∧ name ≠ "Bot") := by
          rintro ⟨h1, h2⟩
          exact h (name, PyObj.clsObj c) (by simp) h2 h1
        simp [findBotClass, if_neg hcond, hrest]
      · simp [findBotClass, hrest]

/-- Whatever discovery returns was an entry of the dict, named other
than `Bot`, and a subclass of the module's `Bot` attribute. -/
theorem findBotClass_sound (bo : PyObj) (l : List (String × PyObj)) (c : PyClass)
    (h : findBotClass (some bo) l = some c) :
    ∃ name, (name, PyObj.clsObj c) ∈ l ∧ name ≠ "Bot" ∧
      issubclassChk (PyObj.clsObj c) bo = some true := by
  induction l with
  | nil => simp [findBotClass] at h
  | cons p rest ih =>
      rcases p with ⟨name, obj⟩
      rcases obj with c0 | _
      · by_cases hcond : issubclassChk (PyObj.clsObj c0) bo = some true ∧ name ≠ "Bot"
        · simp only [findBotClass, if_pos hcond, Option.some.injEq] at h
          subst h
          exact ⟨name, by simp, hcond.2, hcond.1⟩
        · simp only [findBotClass, if_neg hcond] at h
          obtain ⟨nm, hmem, hnm, hchk⟩ := ih h
          exact ⟨nm, by simp [hmem], hnm, hchk⟩
      · simp only [findBotClass] at h
        obtain ⟨nm, hmem, hnm, hchk⟩ := ih h
        exact ⟨nm, by simp [hmem], hnm, hchk⟩

/-- A pointwise-identity map is the identity. -/
theorem map_eq_self_of (l : List α) (f : α → α) (h : ∀ a ∈ l, f a = a) : l.map f = l := by
  induction l with
  | nil => rfl
  | cons a t ih => simp [h a (by simp), ih (fun x hx => h x (by simp [hx]))]

/-- With duplicate-free keys, looking up a member's key finds its value. -/
theorem lookupD_mem_self (d : List (String × PyObj)) (p : String × PyObj)
    (hnd : (d.map Prod.fst).Nodup) (hp : p ∈ d) : lookupD d p.1 = some p.2 := by
  induction d with
  | nil => cases hp
  | cons q rest ih =>
      rcases List.mem_cons.mp hp with rfl | hp2
      · simp [lookupD, List.find?]
      · have hq : q.1 ∉ rest.map Prod.fst := (List.nodup_cons.mp hnd).1
        have hne : ¬(q.1 == p.1) := by
          simp only [beq_iff_eq]
          intro he
          exact hq (he ▸ List.mem_map_of_mem Prod.fst hp2)
        have ih2 := ih (List.nodup_cons.mp hnd).2 hp2
        simpa [lookupD, List.find?, hne] using ih2

/-- Re-executing unchanged code into the same namespace leaves the
module dict unchanged (duplicate-free keys, as Python dicts guarantee). -/
theorem dictMerge_self (d : List (String × PyObj)) (hnd : (d.map Prod.fst).Nodup) :
    dictMerge d d = d := by
  unfold dictMerge
  have h1 : d.map (fun p => (p.1, (lookupD d p.1).getD p.2)) = d := by
    refine map_eq_self_of d _ (fun p hp => ?_)
    rw [lookupD_mem_self d p hnd hp]
    rfl
  have h2 : d.filter (fun p => (lookupD d p.1).isNone) = [] := by
    rw [List.filter_eq_nil_iff]
    intro p hp
    simp [lookupD_mem_self d p hnd hp]
  rw [h1, h2, List.append_nil]

/-! ## Trace-shape lemmas -/

/-- The removal loop only appends removal attempts to the trace, and only
for tokens of the list it was given. -/
theorem removeLoop_trace (hs : List Handler) (dp : Dispatcher) :
    ∃ tr, (removeLoop dp hs).1.trace = dp.trace ++ tr ∧
      ∀ op ∈ tr, ∃ h, h ∈ hs ∧ (op = DpOp.removeOk h ∨ op = DpOp.removeFail h) := by
  induction hs generalizing dp with
  | nil => exact ⟨[], by simp [removeLoop], by simp⟩
  | cons h t ih =>
      by_cases hb : h ∈ dp.badRemove
      · refine ⟨[DpOp.removeFail h], ?_, ?_⟩
        · simp [removeLoop, Dispatcher.remove_handler, hb]
        · intro op hop
          simp only [List.mem_singleton] at hop
          exact ⟨h, by simp, Or.inr hop⟩
      · obtain ⟨tr, htr, hmem⟩ :=
          ih { registered := dp.registered.erase h, badRemove := dp.badRemove, trace := dp.trace ++ [DpOp.removeOk h] }
        refine ⟨DpOp.removeOk h :: tr, ?_, ?_⟩
        · simp only [removeLoop, Dispatcher.remove_handler, if_neg hb]
          simpa [List.append_assoc] using htr
        · intro op hop
          rcases List.mem_cons.mp hop with rfl | hop2
          · exact ⟨h, by simp, Or.inl rfl⟩
          · obtain ⟨h2, hh2, hor⟩ := hmem op hop2
            exact ⟨h2, by simp [hh2], hor⟩

/-- `Bot.remove_handlers` only appends removal attempts for its own
tokens to the trace. -/
theorem remove_handlers_trace (b : BotObj) (dp : Dispatcher) :
    ∃ tr, (b.remove_handlers dp).1.trace = dp.trace ++ tr ∧
      ∀ op ∈ tr, ∃ h, h ∈ ownedHandlers (some b) ∧
        (op = DpOp.removeOk h ∨ op = DpOp.removeFail h) := by
  rcases hb : b.handlers with _ | hs
  · exact ⟨[], by simp [BotObj.remove_handlers, hb], by simp⟩
  · obtain ⟨tr, htr, hmem⟩ := removeLoop_trace hs dp
    refine ⟨tr, ?_, ?_⟩
    · simp [BotObj.remove_handlers, hb, htr]
    · intro op hop
      obtain ⟨h, hh, hor⟩ := hmem op hop
      exact ⟨h, by simp [ownedHandlers, hb, hh], hor⟩

/-- The teardown step of a reload only appends removal attempts for the
old instance's tokens. -/
theorem reloadTeardown_trace (f : String) (inst : Option BotObj) (dp : Dispatcher) :
    ∃ tr, (reloadTeardown f inst dp).1.trace = dp.trace ++ tr ∧
      ∀ op ∈ tr, ∃ h, h ∈ ownedHandlers inst ∧
        (op = DpOp.removeOk h ∨ op = DpOp.removeFail h) := by
  rcases inst with _ | b
  · exact ⟨[], by simp [reloadTeardown], by simp⟩
  · exact remove_handlers_trace b dp

/-- Instantiation only appends `add_handler` calls to the trace. -/
theorem gcbi_trace (m : Module) (dp : Dispatcher) (next : Nat) :
    ∃ tr, (get_custom_bot_instance m dp next).2.1.trace = dp.trace ++ tr ∧
      ∀ op ∈ tr, isAddOp op = true := by
  rcases hd : get_custom_bot_class m with _ | c
  · exact ⟨[], by simp [gcbi_none m dp next hd], by simp⟩
  · rcases hc : c.ctorB with n | _ | n
    · refine ⟨(List.range' next n).map DpOp.addOp, ?_, ?_⟩
      · simp [gcbi_adds m dp next c n hd hc]
      · intro op hop
        obtain ⟨h, _, rfl⟩ := List.mem_map.mp hop
        rfl
    · exact ⟨[], by simp [gcbi_raises m dp next c hd hc], by simp⟩
    · exact ⟨[], by simp [get_custom_bot_instance, hd, runCtor_skips c dp next n hc], by simp⟩

/-! ## Lemmas about the `.py$` matcher -/

/-- `.py$` matches at a given position iff the rest of the string is a
non-newline character, `p`, `y`, optionally followed by one final
newline. -/
theorem matchesPyAt_iff (l : List Char) :
    matchesPyAt l = true ↔
      ∃ c, c ≠ '\n' ∧ (l = [c, 'p', 'y'] ∨ l = [c, 'p', 'y', '\n']) := by
  rcases l with _ | ⟨a, _ | ⟨b, _ | ⟨c3, _ | ⟨d4, _ | ⟨e5, t⟩⟩⟩⟩⟩ <;>
    simp [matchesPyAt] <;> aesop

/-- `re.search(".py$", ·)` succeeds iff some suffix of the string is a
non-newline character, `p`, `y`, optionally followed by one final
newline. -/
theorem reSearchAux_iff (l : List Char) :
    reSearchAux l = true ↔
      ∃ c, c ≠ '\n' ∧ ([c, 'p', 'y'] <:+ l ∨ [c, 'p', 'y', '\n'] <:+ l) := by
  induction l with
  | nil =>
      simp only [reSearchAux, Bool.false_eq_true, false_iff]
      rintro ⟨c, _, h | h⟩ <;> simp [List.suffix_nil] at h
  | cons a t ih =>
      simp only [reSearchAux, Bool.or_eq_true, matchesPyAt_iff, ih, List.suffix_cons_iff]
      constructor
      · rintro (⟨c, hc, h | h⟩ | ⟨c, hc, h | h⟩)
        · exact ⟨c, hc, Or.inl (Or.inl h.symm)⟩
        · exact ⟨c, hc, Or.inr (Or.inl h.symm)⟩
        · exact ⟨c, hc, Or.inl (Or.inr h)⟩
        · exact ⟨c, hc, Or.inr (Or.inr h)⟩
      · rintro ⟨c, hc, (h | h) | (h | h)⟩
        · exact Or.inl ⟨c, hc, Or.inl h.symm⟩
        · exact Or.inr ⟨c, hc, Or.inl h⟩
        · exact Or.inl ⟨c, hc, Or.inr h.symm⟩
        · exact Or.inr ⟨c, hc, Or.inr h⟩

/-! ## Path lemmas for `run_bot` -/

/-- Re-assigning the same key twice keeps only the last value. -/
theorem setBots_setBots (bots : Registry) (f : String) (v w : Module × Option BotObj) :
    setBots (setBots bots f v) f w = setBots bots f w := by
  induction bots with
  | nil => simp [setBots]
  | cons p rest ih =>
      by_cases hp : p.1 == f
      · simp [setBots, hp]
      · simp [setBots, hp, ih]

/-- First-load path, import fails. -/
theorem run_bot_load_broken (fs : FS) (f : String) (st : St)
    (hentry : lookupBots st.bots f = none) (hfs : fsContent fs f = FileContent.broken) :
    run_bot fs f st =
      ({ st with log := st.log ++ [LogEntry.loadingNewBot f, LogEntry.couldNotLoadBot f] },
        false) := by
  simp [run_bot, hentry, load_bot, hfs]

/-- First-load path, import succeeds and instantiation does not raise. -/
theorem run_bot_load_ok (fs : FS) (f : String) (st : St) (d : List (String × PyObj))
    (instOpt : Option BotObj)
    (hentry : lookupBots st.bots f = none) (hfs : fsContent fs f = FileContent.codeOf d)
    (hok : (get_custom_bot_instance { dict := d } st.dp st.nextToken).1 = Except.ok instOpt) :
    run_bot fs f st =
      ({ st with
          dp := (get_custom_bot_instance { dict := d } st.dp st.nextToken).2.1
          nextToken := (get_custom_bot_instance { dict := d } st.dp st.nextToken).2.2.1
          log := st.log ++ [LogEntry.loadingNewBot f] ++
            (get_custom_bot_instance { dict := d } st.dp st.nextToken).2.2.2
          bots := setBots st.bots f ({ dict := d }, instOpt) }, false) := by
  simp [run_bot, hentry, load_bot, hfs, hok]

/-- First-load path, import succeeds but the constructor raises: the
exception escapes `run_bot` and no registry entry is written. -/
theorem run_bot_load_raise (fs : FS) (f : String) (st : St) (d : List (String × PyObj))
    (hentry : lookupBots st.bots f = none) (hfs : fsContent fs f = FileContent.codeOf d)
    (herr : (get_custom_bot_instance { dict := d } st.dp st.nextToken).1 = Except.error ()) :
    run_bot fs f st =
      ({ st with
          dp := (get_custom_bot_instance { dict := d } st.dp st.nextToken).2.1
          nextToken := (get_custom_bot_instance { dict := d } st.dp st.nextToken).2.2.1
          log := st.log ++ [LogEntry.loadingNewBot f] ++
            (get_custom_bot_instance { dict := d } st.dp st.nextToken).2.2.2 }, true) := by
  simp [run_bot, hentry, load_bot, hfs, herr]

/-- Reload path when instantiation does not raise: teardown of the old
instance, in-place refresh, instantiation against the refreshed module,
registry updated to the new pair. -/
theorem run_bot_reload_ok (fs : FS) (f : String) (st : St) (m : Module)
    (inst instOpt : Option BotObj)
    (hentry : lookupBots st.bots f = some (m, inst))
    (hok : (get_custom_bot_instance (reloadRefresh fs f m).1 (reloadTeardown f inst st.dp).1
        st.nextToken).1 = Except.ok instOpt) :
    run_bot fs f st =
      ({ st with
          dp := (get_custom_bot_instance (reloadRefresh fs f m).1
            (reloadTeardown f inst st.dp).1 st.nextToken).2.1
          nextToken := (get_custom_bot_instance (reloadRefresh fs f m).1
            (reloadTeardown f inst st.dp).1 st.nextToken).2.2.1
          log := st.log ++ (reloadTeardown f inst st.dp).2 ++ (reloadRefresh fs f m).2 ++
            (get_custom_bot_instance (reloadRefresh fs f m).1
              (reloadTeardown f inst st.dp).1 st.nextToken).2.2.2
          bots := setBots st.bots f ((reloadRefresh fs f m).1, instOpt) }, false) := by
  simp [run_bot, hentry, hok, setBots_setBots]

/-- Reload path when the new constructor raises: the refreshed module is
left in the registry with the old (already torn-down) instance. -/
theorem run_bot_reload_raise (fs : FS) (f : String) (st : St) (m : Module)
    (inst : Option BotObj)
    (hentry : lookupBots st.bots f = some (m, inst))
    (herr : (get_custom_bot_instance (reloadRefresh fs f m).1 (reloadTeardown f inst st.dp).1
        st.nextToken).1 = Except.error ()) :
    run_bot fs f st =
      ({ st with
          dp := (get_custom_bot_instance (reloadRefresh fs f m).1
            (reloadTeardown f inst st.dp).1 st.nextToken).2.1
          nextToken := (get_custom_bot_instance (reloadRefresh fs f m).1
            (reloadTeardown f inst st.dp).1 st.nextToken).2.2.1
          log := st.log ++ (reloadTeardown f inst st.dp).2 ++ (reloadRefresh fs f m).2 ++
            (get_custom_bot_instance (reloadRefresh fs f m).1
              (reloadTeardown f inst st.dp).1 st.nextToken).2.2.2
          bots := setBots st.bots f ((reloadRefresh fs f m).1, inst) }, true) := by
  simp [run_bot, hentry, herr]

/-- Membership in a concatenated trace splits over the parts. -/
theorem attemptsRemoval_append (a b : List DpOp) (h : Handler) :
    attemptsRemoval (a ++ b) h = (attemptsRemoval a h || attemptsRemoval b h) :=
  List.any_append

/-- An eligible entry guarantees discovery returns something. -/
theorem findBotClass_some_of (bo : PyObj) (l : List (String × PyObj))
    (name : String) (c : PyClass) (hmem : (name, PyObj.clsObj c) ∈ l)
    (hname : name ≠ "Bot") (hchk : issubclassChk (PyObj.clsObj c) bo = some true) :
    findBotClass (some bo) l ≠ none := by
  induction l with
  | nil => cases hmem
  | cons p rest ih =>
      rcases p with ⟨nm, obj⟩
      rcases List.mem_cons.mp hmem with he | hm2
      · obtain ⟨rfl, rfl⟩ := Prod.mk.injEq .. ▸ And.intro (congrArg Prod.fst he.symm) (congrArg Prod.snd he.symm)
        have hcond : issubclassChk (PyObj.clsObj c) bo = some true ∧ name ≠ "Bot" := ⟨hchk, hname⟩
        simp [findBotClass, if_pos hcond]
      · rcases obj with c0 | _
        · by_cases hcond : issubclassChk (PyObj.clsObj c0) bo = some true ∧ nm ≠ "Bot"
          · simp [findBotClass, if_pos hcond]
          · simpa [findBotClass, if_neg hcond] using ih hm2
        · simpa [findBotClass] using ih hm2

/-! ## The claims -/

/-- C7 (confirmed): on a `Bot` object whose base initializer never ran
(no handler list exists), `add_handler` is stopped by the `is_sane`
guard: the guard failure is logged (the "You didn't call
super().__init__" error, the spec's `NotInitializedError`), the call
returns normally, the object is unchanged (no handler appended) and the
dispatcher is untouched. -/
theorem claim7_uninitialized_guard (b : BotObj) (dp : Dispatcher) (h : Handler)
    (hb : b.handlers = none) :
    b.add_handler dp h = (b, dp, [LogEntry.missingInitError]) := by
  simp [BotObj.add_handler, hb]

/-- Witness for C7 at a concrete uninitialized object. -/
theorem claim7_witness :
    BotObj.add_handler { clsId := 5, handlers := none } dp0 9 =
      ({ clsId := 5, handlers := none }, dp0, [LogEntry.missingInitError]) :=
  claim7_uninitialized_guard { clsId := 5, handlers := none } dp0 9 rfl

/-- C1 (refuted as stated): with handler tokens `[1, 2, 3]` and the
removal of token 2 raising at the dispatcher, `Bot.remove_handlers`
never attempts the removal of token 3 — the single `try` wrapping the
whole loop aborts it — and token 3 stays registered, contrary to the
claim that the remaining tokens are still attempted. -/
theorem claim1_counterexample :
    attemptsRemoval (cexBot.remove_handlers cexDp).1.trace 3 = false ∧
      3 ∈ (cexBot.remove_handlers cexDp).1.registered := by decide

/-- C1 (amended): when removal of token `x` fails at the dispatcher, the
tokens before `x` have been removed (and logged), the failing attempt on
`x` is recorded, the exception is caught and logged rather than
propagated — but no token after `x` is attempted. -/
theorem claim1_amended (b : BotObj) (dp : Dispatcher) (pre : List Handler) (x : Handler)
    (post : List Handler) (hb : b.handlers = some (pre ++ x :: post))
    (hpre : ∀ h ∈ pre, h ∉ dp.badRemove) (hx : x ∈ dp.badRemove) :
    (b.remove_handlers dp).1.trace
        = dp.trace ++ pre.map DpOp.removeOk ++ [DpOp.removeFail x] ∧
      (b.remove_handlers dp).2
        = (pre ++ [x]).map LogEntry.removingHandler ++ [LogEntry.couldNotRemoveHandlers] ∧
      ∀ h ∈ post, h ∉ pre → h ≠ x →
        attemptsRemoval (b.remove_handlers dp).1.trace h = attemptsRemoval dp.trace h := by
  have hr := remove_handlers_abort b dp pre x post hb hpre hx
  refine ⟨by simp [hr], by simp [hr], ?_⟩
  intro h hpost hnp hnx
  have h1 : attemptsRemoval (pre.map DpOp.removeOk) h = false := by
    rw [attemptsRemoval, List.any_eq_false]
    intro op hop
    obtain ⟨h2, hh2, rfl⟩ := List.mem_map.mp hop
    simp only [Bool.or_eq_true, beq_iff_eq, not_or]
    constructor
    · intro he
      injection he with h3
      exact hnp (h3 ▸ hh2)
    · intro he
      exact DpOp.noConfusion he
  have h2 : attemptsRemoval [DpOp.removeFail x] h = false := by
    rw [attemptsRemoval, List.any_eq_false]
    intro op hop
    simp only [List.mem_singleton] at hop
    subst hop
    simp only [Bool.or_eq_true, beq_iff_eq, not_or]
    refine ⟨fun he => DpOp.noConfusion he, fun he => ?_⟩
    injection he with h3
    exact hnx h3.symm
  simp [hr, attemptsRemoval_append, h1, h2]

/-- Witness for the amended C1 on the concrete counterexample data. -/
theorem claim1_amended_witness :
    (cexBot.remove_handlers cexDp).1.trace
        = cexDp.trace ++ [1].map DpOp.removeOk ++ [DpOp.removeFail 2] ∧
      (cexBot.remove_handlers cexDp).2
        = ([1] ++ [2]).map LogEntry.removingHandler ++ [LogEntry.couldNotRemoveHandlers] ∧
      ∀ h ∈ [3], h ∉ [1] → h ≠ 2 →
        attemptsRemoval (cexBot.remove_handlers cexDp).1.trace h
          = attemptsRemoval cexDp.trace h :=
  claim1_amended cexBot cexDp [1] 2 [3] rfl (by decide) (by decide)

/-- C5 (refuted as stated): the watcher's filter is the regex `.py$`
where `.` matches any non-newline character, so the path `happy` —
which does not end in `.py` — still triggers the callback. -/
theorem claim5_counterexample :
    (on_modified_file "happy").1 = some "happy" ∧
      List.isSuffixOf ['.', 'p', 'y'] "happy".data = false := by decide

/-- C5 (amended): the callback fires iff the path ends with a
non-newline character followed by `py`, optionally followed by one
trailing newline (Python `re.search(".py$", path)`); in particular every
path ending in `.py` still triggers it. -/
theorem claim5_amended (path : String) :
    ((on_modified_file path).1 = some path ↔
      ∃ c, c ≠ '\n' ∧ ([c, 'p', 'y'] <:+ path.data ∨ [c, 'p', 'y', '\n'] <:+ path.data)) ∧
    (['.', 'p', 'y'] <:+ path.data → (on_modified_file path).1 = some path) := by
  have h1 : ((on_modified_file path).1 = some path) ↔ reSearchPyDollar path = true := by
    by_cases hh : reSearchPyDollar path = true <;> simp [on_modified_file, hh]
  have h2 : (reSearchPyDollar path = true) ↔
      ∃ c, c ≠ '\n' ∧ ([c, 'p', 'y'] <:+ path.data ∨ [c, 'p', 'y', '\n'] <:+ path.data) :=
    reSearchAux_iff path.data
  refine ⟨h1.trans h2, fun hsuf => ?_⟩
  exact h1.mpr (h2.mpr ⟨'.', by decide, Or.inl hsuf⟩)

/-- Witness for the amended C5: a genuine `.py` path triggers the
callback. -/
theorem claim5_amended_witness : (on_modified_file "fish.py").1 = some "fish.py" :=
  (claim5_amended "fish.py").2 (by decide)

/-- C10 (confirmed): discovery returns `None` whenever the module does
not bind the attribute `Bot` (even if genuine subclasses are defined in
it under an aliased base); when the module binds `Bot`, whatever
discovery returns is a module attribute other than `Bot` that is a
subclass of that bound value, and discovery returns `None` exactly when
no such attribute exists. -/
theorem claim10_discovery_shape (m : Module) :
    (m.getattrBot = none → get_custom_bot_class m = none) ∧
    (∀ c, get_custom_bot_class m = some c →
      ∃ name, (name, PyObj.clsObj c) ∈ m.dict ∧ name ≠ "Bot" ∧
        ∃ bo, m.getattrBot = some bo ∧ issubclassChk (PyObj.clsObj c) bo = some true) ∧
    (∀ bo, m.getattrBot = some bo →
      (get_custom_bot_class m = none ↔
        ¬∃ name c, (name, PyObj.clsObj c) ∈ m.dict ∧ name ≠ "Bot" ∧
          issubclassChk (PyObj.clsObj c) bo = some true)) := by
  refine ⟨?_, ?_, ?_⟩
  · intro h
    unfold get_custom_bot_class
    rw [h]
    exact findBotClass_noattr m.dict
  · intro c hc
    unfold get_custom_bot_class at hc
    rcases hbo : m.getattrBot with _ | bo
    · rw [hbo, findBotClass_noattr] at hc
      cases hc
    · rw [hbo] at hc
      obtain ⟨name, hmem, hname, hchk⟩ := findBotClass_sound bo m.dict c hc
      exact ⟨name, hmem, hname, bo, rfl, hchk⟩
  · intro bo hbo
    constructor
    · intro hnone
      rintro ⟨name, c, hmem, hname, hchk⟩
      unfold get_custom_bot_class at hnone
      rw [hbo] at hnone
      exact findBotClass_some_of bo m.dict name c hmem hname hchk hnone
    · intro hno
      unfold get_custom_bot_class
      rw [hbo]
      refine findBotClass_none_of bo m.dict (fun p hp hname hchk => hno ?_)
      rcases p with ⟨nm, obj⟩
      rcases obj with c0 | _
      · exact ⟨nm, c0, hp, hname, hchk⟩
      · rw [issubclassChk_plain_left] at hchk
        cases hchk

/-- Witness for C10: the aliased module (no `Bot` binding) yields no
class; on the fish module the discovered class is a genuine non-`Bot`
subclass entry. -/
theorem claim10_witness :
    get_custom_bot_class { dict := aliasedDict } = none ∧
      ∃ name, (name, PyObj.clsObj fishCls) ∈ fishDict ∧ name ≠ "Bot" ∧
        ∃ bo, Module.getattrBot { dict := fishDict } = some bo ∧
          issubclassChk (PyObj.clsObj fishCls) bo = some true :=
  ⟨(claim10_discovery_shape { dict := aliasedDict }).1 (by decide),
    (claim10_discovery_shape { dict := fishDict }).2.1 fishCls (by decide)⟩

/-- C6 (confirmed): loading a code unit in which no attribute other than
`Bot` passes the subclass test creates no instance: discovery returns
nothing, a warning is logged, no exception escapes, the registry entry
keeps no current `BotInstance`, and the dispatcher is untouched. -/
theorem claim6_zero_candidates (fs : FS) (f : String) (st : St) (d : List (String × PyObj))
    (hentry : lookupBots st.bots f = none)
    (hfs : fsContent fs f = FileContent.codeOf d)
    (hno : ∀ p ∈ d, p.1 ≠ "Bot" →
      issubclassChk p.2 ((lookupD d "Bot").getD PyObj.plain) ≠ some true) :
    (run_bot fs f st).2 = false ∧
      lookupBots (run_bot fs f st).1.bots f = some ({ dict := d }, none) ∧
      (run_bot fs f st).1.log = st.log ++ [LogEntry.loadingNewBot f, LogEntry.noBotClassWarning] ∧
      (run_bot fs f st).1.dp = st.dp := by
  have hdisc : get_custom_bot_class { dict := d } = none := by
    unfold get_custom_bot_class Module.getattrBot
    rcases hbo : lookupD d "Bot" with _ | bo
    · exact findBotClass_noattr d
    · refine findBotClass_none_of bo d (fun p hp hname => ?_)
      have := hno p hp hname
      rwa [hbo] at this
  have hg := gcbi_none { dict := d } st.dp st.nextToken hdisc
  rw [run_bot_load_ok fs f st d none hentry hfs (by rw [hg])]
  exact ⟨rfl, by simp [lookupBots_setBots_self], by simp [hg], by simp [hg]⟩

/-- Witness for C6 on the concrete class-less plugin file. -/
theorem claim6_witness :
    (run_bot fsEmptyPlugin "h" st0).2 = false ∧
      lookupBots (run_bot fsEmptyPlugin "h" st0).1.bots "h"
        = some ({ dict := emptyPluginDict }, none) ∧
      (run_bot fsEmptyPlugin "h" st0).1.log
        = st0.log ++ [LogEntry.loadingNewBot "h", LogEntry.noBotClassWarning] ∧
      (run_bot fsEmptyPlugin "h" st0).1.dp = st0.dp :=
  claim6_zero_candidates fsEmptyPlugin "h" st0 emptyPluginDict (by decide) (by decide) (by decide)

/-- C3 (refuted as stated): a plugin whose discovered class raises in its
constructor makes the load raise out of `run_bot` (nothing catches the
constructor exception), contrary to the claim that every load error is
caught and logged. -/
theorem claim3_counterexample :
    (run_bot [("g", FileContent.codeOf raisingDict)] "g" st0).2 = true ∧
      lookupBots (run_bot [("g", FileContent.codeOf raisingDict)] "g" st0).1.bots "g"
        = none := by
  decide

/-- C3 (amended): a load error from a failing import (e.g. syntax error)
or from a missing capability class is logged, leaves no `BotInstance` in
the registry entry, and returns to the caller without raising; but an
exception raised by the discovered class's constructor propagates to the
caller (with no entry stored and the dispatcher unchanged). -/
theorem claim3_amended :
    (∀ fs f st, lookupBots st.bots f = none → fsContent fs f = FileContent.broken →
      (run_bot fs f st).2 = false ∧ lookupBots (run_bot fs f st).1.bots f = none ∧
        (run_bot fs f st).1.log
          = st.log ++ [LogEntry.loadingNewBot f, LogEntry.couldNotLoadBot f]) ∧
    (∀ fs f st d, lookupBots st.bots f = none → fsContent fs f = FileContent.codeOf d →
      get_custom_bot_class { dict := d } = none →
      (run_bot fs f st).2 = false ∧
        lookupBots (run_bot fs f st).1.bots f = some ({ dict := d }, none) ∧
        (run_bot fs f st).1.log
          = st.log ++ [LogEntry.loadingNewBot f, LogEntry.noBotClassWarning]) ∧
    (∀ fs f st d c, lookupBots st.bots f = none → fsContent fs f = FileContent.codeOf d →
      get_custom_bot_class { dict := d } = some c → c.ctorB = CtorBehavior.raisesError →
      (run_bot fs f st).2 = true ∧ lookupBots (run_bot fs f st).1.bots f = none ∧
        (run_bot fs f st).1.dp = st.dp) := by
  refine ⟨?_, ?_, ?_⟩
  · intro fs f st hentry hfs
    rw [run_bot_load_broken fs f st hentry hfs]
    exact ⟨rfl, by simpa using hentry, by simp⟩
  · intro fs f st d hentry hfs hdisc
    have hg := gcbi_none { dict := d } st.dp st.nextToken hdisc
    rw [run_bot_load_ok fs f st d none hentry hfs (by rw [hg])]
    exact ⟨rfl, by simp [lookupBots_setBots_self], by simp [hg]⟩
  · intro fs f st d c hentry hfs hdisc hctor
    have hg := gcbi_raises { dict := d } st.dp st.nextToken c hdisc hctor
    rw [run_bot_load_raise fs f st d hentry hfs (by rw [hg])]
    exact ⟨rfl, by simpa using hentry, by simp [hg]⟩

/-- Witness for the amended C3: a broken import is contained, a raising
constructor is not. -/
theorem claim3_amended_witness :
    (run_bot [("q", FileContent.broken)] "q" st0).2 = false ∧
      (run_bot [("g", FileContent.codeOf raisingDict)] "g" st0).2 = true :=
  ⟨(claim3_amended.1 [("q", FileContent.broken)] "q" st0 (by decide) (by decide)).1,
    (claim3_amended.2.2 [("g", FileContent.codeOf raisingDict)] "g" st0 raisingDict
      raisingCls (by decide) (by decide) (by decide) (by decide)).1⟩

/-- C2 (refuted as stated): after the fish plugin is loaded and its file
rewritten with a syntax error, the reload removes the old instance's
handler and logs the reload failure — but `importlib.reload` leaves the
old module dict intact, so a fresh instance of the old class is created
and registered: the registry entry still holds a current instance and
the dispatcher still holds one handler for it, contrary to the claim
that the entry is left with no current instance and no handler. -/
theorem claim2_counterexample :
    lookupBots stAfterBrokenReload.bots "f"
        = some ({ dict := fishDict }, some { clsId := 1, handlers := some [1] }) ∧
      stAfterBrokenReload.dp.registered = [1] ∧
      (run_bot fsBroken "f" stAfterLoad).2 = false := by
  decide

/-- C2 (amended): when the refresh of a loaded identity's file fails, the
old instance's handlers are removed and the failure is logged, the
operation does not crash — but the retained (old) code unit is
re-instantiated: the entry ends up with a fresh instance of the old
class whose `n` new handlers are registered with the dispatcher. -/
theorem claim2_amended (fs : FS) (f : String) (st : St) (m : Module) (b : BotObj)
    (hs : List Handler) (c : PyClass) (n : Nat)
    (hentry : lookupBots st.bots f = some (m, some b))
    (hb : b.handlers = some hs)
    (hclean : ∀ h ∈ hs, h ∉ st.dp.badRemove)
    (hfs : fsContent fs f = FileContent.broken)
    (hdisc : get_custom_bot_class m = some c)
    (hctor : c.ctorB = CtorBehavior.addsHandlers n) :
    (run_bot fs f st).2 = false ∧
      lookupBots (run_bot fs f st).1.bots f
        = some (m, some { clsId := c.clsId, handlers := some (List.range' st.nextToken n) }) ∧
      (run_bot fs f st).1.dp.registered
        = hs.foldl (fun r h => r.erase h) st.dp.registered ++ List.range' st.nextToken n ∧
      (run_bot fs f st).1.log
        = st.log ++ hs.map LogEntry.removingHandler ++ [LogEntry.couldNotReloadBot f]
          ++ (List.range' st.nextToken n).map LogEntry.addingHandler
          ++ [LogEntry.createdInstance] := by
  have htd : reloadTeardown f (some b) st.dp
      = ({ registered := hs.foldl (fun r h => r.erase h) st.dp.registered, badRemove := st.dp.badRemove, trace := st.dp.trace ++ hs.map DpOp.removeOk },
        hs.map LogEntry.removingHandler) := by
    unfold reloadTeardown
    exact remove_handlers_clean b st.dp hs hb hclean
  have hrr : reloadRefresh fs f m = (m, [LogEntry.couldNotReloadBot f]) := by
    unfold reloadRefresh
    rw [hfs]
  have hg := gcbi_adds m { registered := hs.foldl (fun r h => r.erase h) st.dp.registered, badRemove := st.dp.badRemove, trace := st.dp.trace ++ hs.map DpOp.removeOk }
    st.nextToken c n hdisc hctor
  have hok : (get_custom_bot_instance (reloadRefresh fs f m).1 (reloadTeardown f (some b) st.dp).1
      st.nextToken).1 = Except.ok (some { clsId := c.clsId, handlers := some (List.range' st.nextToken n) }) := by
    rw [hrr, htd, hg]
  rw [run_bot_reload_ok fs f st m (some b)
    (some { clsId := c.clsId, handlers := some (List.range' st.nextToken n) }) hentry hok]
  refine ⟨rfl, ?_, ?_, ?_⟩
  · simp [hrr, lookupBots_setBots_self]
  · simp [hrr, htd, hg]
  · simp [hrr, htd, hg]

/-- Witness for the amended C2 on the concrete fish-then-syntax-error
scenario. -/
theorem claim2_amended_witness :
    (run_bot fsBroken "f" stAfterLoad).2 = false ∧
      lookupBots (run_bot fsBroken "f" stAfterLoad).1.bots "f"
        = some ({ dict := fishDict },
            some { clsId := fishCls.clsId, handlers := some (List.range' stAfterLoad.nextToken 1) }) ∧
      (run_bot fsBroken "f" stAfterLoad).1.dp.registered
        = [0].foldl (fun r h => r.erase h) stAfterLoad.dp.registered
          ++ List.range' stAfterLoad.nextToken 1 ∧
      (run_bot fsBroken "f" stAfterLoad).1.log
        = stAfterLoad.log ++ [0].map LogEntry.removingHandler
          ++ [LogEntry.couldNotReloadBot "f"]
          ++ (List.range' stAfterLoad.nextToken 1).map LogEntry.addingHandler
          ++ [LogEntry.createdInstance] :=
  claim2_amended fsBroken "f" stAfterLoad { dict := fishDict }
    { clsId := 1, handlers := some [0] } [0] fishCls 1
    (by decide) (by decide) (by decide) (by decide) (by decide) (by decide)

/-- C9 (confirmed): a registry entry whose stored instance is absent
(`None`, as a zero-candidate discovery leaves it) still goes through the
reload path without raising: the `AttributeError` from calling teardown
on `None` is caught and logged, the code unit is refreshed in place, and
the entry is replaced with whatever instance the new discovery yields. -/
theorem claim9_absent_instance_reload (fs : FS) (f : String) (st : St) (m : Module)
    (d : List (String × PyObj)) (instOpt : Option BotObj)
    (hentry : lookupBots st.bots f = some (m, none))
    (hfs : fsContent fs f = FileContent.codeOf d)
    (hok : (get_custom_bot_instance { dict := dictMerge m.dict d } st.dp st.nextToken).1
      = Except.ok instOpt) :
    (run_bot fs f st).2 = false ∧
      lookupBots (run_bot fs f st).1.bots f = some ({ dict := dictMerge m.dict d }, instOpt) ∧
      ∃ lg, (run_bot fs f st).1.log
        = st.log ++ [LogEntry.couldNotRemoveFromBot f, LogEntry.reloadedBot f] ++ lg := by
  have htd : reloadTeardown f none st.dp = (st.dp, [LogEntry.couldNotRemoveFromBot f]) := rfl
  have hrr : reloadRefresh fs f m
      = ({ dict := dictMerge m.dict d }, [LogEntry.reloadedBot f]) := by
    unfold reloadRefresh
    rw [hfs]
  have hrun := run_bot_reload_ok fs f st m none instOpt hentry (by rw [hrr, htd]; exact hok)
  rw [hrun]
  refine ⟨rfl, by simp [hrr, lookupBots_setBots_self], ?_⟩
  refine ⟨(get_custom_bot_instance { dict := dictMerge m.dict d } st.dp st.nextToken).2.2.2, ?_⟩
  simp [htd, hrr]

/-- Witness for C9: the class-less plugin's entry (instance `None`) is
reloaded after the file gains the fish plugin's content. -/
theorem claim9_witness :
    (run_bot fsEmptyThenFish "h" stNoInstance).2 = false ∧
      lookupBots (run_bot fsEmptyThenFish "h" stNoInstance).1.bots "h"
        = some ({ dict := dictMerge emptyPluginDict fishDict },
            some { clsId := 1, handlers := some [0] }) ∧
      ∃ lg, (run_bot fsEmptyThenFish "h" stNoInstance).1.log
        = stNoInstance.log
          ++ [LogEntry.couldNotRemoveFromBot "h", LogEntry.reloadedBot "h"] ++ lg :=
  claim9_absent_instance_reload fsEmptyThenFish "h" stNoInstance { dict := emptyPluginDict }
    fishDict (some { clsId := 1, handlers := some [0] }) (by decide) (by decide) rfl

/-- C4 (confirmed): on any reload of an identity with a registry entry,
the dispatcher calls made by the operation decompose as a block of
removal attempts — all for tokens owned by the old stored instance —
followed by a block of `add_handler` calls for the new instance; no
registration of the new instance ever precedes a removal of the old
one. -/
theorem claim4_reload_ordering (fs : FS) (f : String) (st : St) (m : Module)
    (inst : Option BotObj) (hentry : lookupBots st.bots f = some (m, inst)) :
    ∃ rs as, (run_bot fs f st).1.dp.trace = st.dp.trace ++ rs ++ as ∧
      (∀ op ∈ rs, ∃ h, h ∈ ownedHandlers inst ∧
        (op = DpOp.removeOk h ∨ op = DpOp.removeFail h)) ∧
      (∀ op ∈ as, isAddOp op = true) := by
  have hdp : (run_bot fs f st).1.dp
      = (get_custom_bot_instance (reloadRefresh fs f m).1 (reloadTeardown f inst st.dp).1
          st.nextToken).2.1 := by
    cases hr : (get_custom_bot_instance (reloadRefresh fs f m).1 (reloadTeardown f inst st.dp).1
        st.nextToken).1 with
    | error e =>
        cases e
        rw [run_bot_reload_raise fs f st m inst hentry hr]
    | ok io =>
        rw [run_bot_reload_ok fs f st m inst io hentry hr]
  obtain ⟨rs, hrs, hrsmem⟩ := reloadTeardown_trace f inst st.dp
  obtain ⟨as, has, hasmem⟩ :=
    gcbi_trace (reloadRefresh fs f m).1 (reloadTeardown f inst st.dp).1 st.nextToken
  refine ⟨rs, as, ?_, hrsmem, hasmem⟩
  rw [hdp, has, hrs, List.append_assoc]

/-- Witness for C4 on the concrete fish-plugin reload. -/
theorem claim4_witness :
    ∃ rs as, (run_bot fsFish "f" stAfterLoad).1.dp.trace = stAfterLoad.dp.trace ++ rs ++ as ∧
      (∀ op ∈ rs, ∃ h, h ∈ ownedHandlers (some { clsId := 1, handlers := some [0] }) ∧
        (op = DpOp.removeOk h ∨ op = DpOp.removeFail h)) ∧
      (∀ op ∈ as, isAddOp op = true) :=
  claim4_reload_ordering fsFish "f" stAfterLoad { dict := fishDict }
    (some { clsId := 1, handlers := some [0] }) (by decide)

/-- C8 (confirmed): running the same identity twice with unchanged code
content yields structurally equivalent instances — the second instance
has the same class and the same handler count as the first — and the
registry afterwards holds exactly one binding for the identity, with the
second instance current. -/
theorem claim8_structural_idempotence (fs : FS) (f : String) (st : St)
    (d : List (String × PyObj)) (c : PyClass) (n : Nat)
    (hfs : fsContent fs f = FileContent.codeOf d)
    (hnd : (d.map Prod.fst).Nodup)
    (hentry : lookupBots st.bots f = none)
    (hdisc : get_custom_bot_class { dict := d } = some c)
    (hctor : c.ctorB = CtorBehavior.addsHandlers n)
    (hclean : st.dp.badRemove = []) :
    ∃ b1 b2 : BotObj,
      lookupBots (run_bot fs f st).1.bots f = some ({ dict := d }, some b1) ∧
      lookupBots (run_bot fs f (run_bot fs f st).1).1.bots f = some ({ dict := d }, some b2) ∧
      b1.clsId = b2.clsId ∧
      b1.handlers.map List.length = some n ∧
      b2.handlers.map List.length = some n ∧
      keyCount (run_bot fs f (run_bot fs f st).1).1.bots f = 1 := by
  have hg1 := gcbi_adds { dict := d } st.dp st.nextToken c n hdisc hctor
  have hrun1 := run_bot_load_ok fs f st d
    (some { clsId := c.clsId, handlers := some (List.range' st.nextToken n) })
    hentry hfs (by rw [hg1])
  have hbots1 : (run_bot fs f st).1.bots
      = setBots st.bots f ({ dict := d },
        some { clsId := c.clsId, handlers := some (List.range' st.nextToken n) }) := by
    rw [hrun1]
  have hnt1 : (run_bot fs f st).1.nextToken = st.nextToken + n := by
    rw [hrun1]
    simp [hg1]
  have hbad1 : (run_bot fs f st).1.dp.badRemove = [] := by
    rw [hrun1]
    simp [hg1, hclean]
  have hentry2 : lookupBots (run_bot fs f st).1.bots f
      = some ({ dict := d },
        some { clsId := c.clsId, handlers := some (List.range' st.nextToken n) }) := by
    rw [hbots1]
    exact lookupBots_setBots_self st.bots f _
  have hrr2 : reloadRefresh fs f { dict := d }
      = ({ dict := d }, [LogEntry.reloadedBot f]) := by
    simp only [reloadRefresh, hfs]
    rw [show dictMerge (Module.dict { dict := d }) d = dictMerge d d from rfl,
      dictMerge_self d hnd]
  have htd2 := remove_handlers_clean
    { clsId := c.clsId, handlers := some (List.range' st.nextToken n) }
    (run_bot fs f st).1.dp (List.range' st.nextToken n) rfl (by simp [hbad1])
  have hok2 : (get_custom_bot_instance (reloadRefresh fs f { dict := d }).1
      (reloadTeardown f
        (some { clsId := c.clsId, handlers := some (List.range' st.nextToken n) })
        (run_bot fs f st).1.dp).1
      (run_bot fs f st).1.nextToken).1
      = Except.ok (some { clsId := c.clsId, handlers := some (List.range' (st.nextToken + n) n) }) := by
    rw [hrr2, hnt1]
    simp only [reloadTeardown]
    rw [htd2, gcbi_adds { dict := d } _ (st.nextToken + n) c n hdisc hctor]
  have hrun2 := run_bot_reload_ok fs f (run_bot fs f st).1 { dict := d }
    (some { clsId := c.clsId, handlers := some (List.range' st.nextToken n) })
    (some { clsId := c.clsId, handlers := some (List.range' (st.nextToken + n) n) })
    hentry2 hok2
  have hbots2 : (run_bot fs f (run_bot fs f st).1).1.bots
      = setBots (setBots st.bots f ({ dict := d },
          some { clsId := c.clsId, handlers := some (List.range' st.nextToken n) })) f
        ({ dict := d },
          some { clsId := c.clsId, handlers := some (List.range' (st.nextToken + n) n) }) := by
    rw [hrun2]
    simp only [hrr2]
    rw [hbots1]
  refine ⟨{ clsId := c.clsId, handlers := some (List.range' st.nextToken n) },
    { clsId := c.clsId, handlers := some (List.range' (st.nextToken + n) n) },
    hentry2, ?_, rfl, ?_, ?_, ?_⟩
  · rw [hbots2]
    exact lookupBots_setBots_self _ f _
  · simp
  · simp
  · rw [hbots2]
    rw [keyCount_setBots_present _ f _ ({ dict := d },
      some { clsId := c.clsId, handlers := some (List.range' st.nextToken n) })
      (lookupBots_setBots_self st.bots f _)]
    exact keyCount_setBots_absent st.bots f _ hentry

/-- Witness for C8 on the concrete fish plugin run twice. -/
theorem claim8_witness :
    ∃ b1 b2 : BotObj,
      lookupBots (run_bot fsFish "f" st0).1.bots "f" = some ({ dict := fishDict }, some b1) ∧
      lookupBots (run_bot fsFish "f" (run_bot fsFish "f" st0).1).1.bots "f"
        = some ({ dict := fishDict }, some b2) ∧
      b1.clsId = b2.clsId ∧
      b1.handlers.map List.length = some 1 ∧
      b2.handlers.map List.length = some 1 ∧
      keyCount (run_bot fsFish "f" (run_bot fsFish "f" st0).1).1.bots "f" = 1 :=
  claim8_structural_idempotence fsFish "f" st0 fishDict fishCls 1
    (by decide) (by decide) (by decide) (by decide) (by decide) (by decide)

end TelegramBotPlug
